import Mathlib

/-!
Shallow embedding of the validation core of `update_language_files.py`
(backintime repository): the placeholder-consistency checker
(`check_syntax_of_po_files` with its helpers `_curly_brackets_balanced`,
`_other_errors`, `_place_holders`) and the keyboard-shortcut collision
detector (`get_shortcut_entries`, `get_shortcut_groups`, `check_shortcuts`).

Strings are modelled as `List Char`; Python regular expressions are
translated into explicit character scans with the same semantics.
Curly braces inside literals are written with the escapes \x7b and \x7d.
-/

namespace UpdateLanguageFiles

/-- Kinds of findings the validation engine can report.  Each constructor
corresponds to one error-printing site in the source:
`UnbalancedPlaceholder` and `NestedPlaceholder` to the two error prints of
`_curly_brackets_balanced`, `MalformedPlaceholder` to the print of
`_other_errors`, `PlaceholderCountMismatch` and `PlaceholderNameMismatch`
to the two error prints of `_place_holders`. -/
inductive Finding where
  | UnbalancedPlaceholder
  | NestedPlaceholder
  | MalformedPlaceholder
  | PlaceholderCountMismatch
  | PlaceholderNameMismatch
deriving DecidableEq, Repr

/-- Model of one parsed po-file entry (a `polib.POEntry`) as consumed by the
validation core: original source string `msgid`, translated string `msgstr`,
plural source `msgid_plural` (empty when absent), plural translations
`msgstr_plural` (empty when absent), translator `flags`, and the
obsolete marker (`entry.obsolete == 0` in the source is `obsolete = false`
here). -/
structure POEntry where
  msgid : List Char
  msgstr : List Char
  msgid_plural : List Char
  msgstr_plural : List (List Char)
  flags : List String
  obsolete : Bool
deriving DecidableEq, Repr

/-- Left and right curly brace characters, written via escapes. -/
def lcurly : Char := '\x7b'

/-- Right curly brace character. -/
def rcurly : Char := '\x7d'

/-- Model of `rex_reduce.sub('', to_check)` for the pattern `[^\x7b\x7d]`:
remove every character that is not a curly bracket. -/
def reduceToCurly (s : List Char) : List Char :=
  s.filter (fun c => c = lcurly ∨ c = rcurly)

/-- Model of `rex_curly_pair.sub('', reduced)`: one left-to-right pass that
removes every non-overlapping occurrence of the two-character substring
made of an opening and a closing curly bracket. -/
def removeCurlyPairs : List Char → List Char
  | [] => []
  | [c] => [c]
  | a :: b :: rest =>
    if a = lcurly ∧ b = rcurly then removeCurlyPairs rest
    else a :: removeCurlyPairs (b :: rest)

/-- Model of `rex_curly_pair.findall(invalid)` being non-empty: the string
contains an opening curly bracket immediately followed by a closing one. -/
def containsCurlyPair : List Char → Bool
  | [] => false
  | [_] => false
  | a :: b :: rest => (a = lcurly ∧ b = rcurly) ∨ containsCurlyPair (b :: rest)

/-- Model of the inner function `_curly_brackets_balanced`, refined to report
which of its two error prints fires: `some NestedPlaceholder` when after the
pair-removal pass a curly pair still matches (the nested case), `some
UnbalancedPlaceholder` when a non-empty residue remains, `none` when the
function returns True. -/
def curlyBracketsResult (s : List Char) : Option Finding :=
  let reduced := reduceToCurly s
  let invalid := removeCurlyPairs reduced
  if containsCurlyPair invalid then some Finding.NestedPlaceholder
  else if invalid = [] then none
  else some Finding.UnbalancedPlaceholder

/-- Boolean return value of `_curly_brackets_balanced`. -/
def curly_brackets_balanced (s : List Char) : Bool :=
  (curlyBracketsResult s).isNone

/-- Predicate describing the strings whose curly-bracket subsequence is a
concatenation of immediately matched empty pairs: the shape on which the
balance check succeeds. -/
def flatCurlyPairs : List Char → Bool
  | [] => true
  | [_] => false
  | a :: b :: rest => if a = lcurly ∧ b = rcurly then flatCurlyPairs rest else false

/-- Single-pass scanner behind `findNames`.  The second argument is `none`
while scanning outside a match attempt and `some acc` while inside one,
`acc` holding the characters captured so far after the opening curly
bracket.  A closing curly bracket emits the captured name; a newline aborts
the attempt (the lazy dot of the pattern does not match newlines, and every
opening bracket read so far is equally blocked by that newline), scanning
resuming after it. -/
def findNamesAux : List Char → Option (List Char) → List (List Char)
  | [], _ => []
  | c :: rest, none =>
    if c = lcurly then findNamesAux rest (some [])
    else findNamesAux rest none
  | c :: rest, some acc =>
    if c = rcurly then acc :: findNamesAux rest none
    else if c = '\n' then findNamesAux rest none
    else findNamesAux rest (some (acc ++ [c]))

/-- Model of `rex_names.findall(s)` for the pattern `\x7b(.*?)\x7d`: the list
of captured placeholder names, scanning left to right, each match starting at
an opening curly bracket and ending at the first closing one (the lazy dot
not crossing newlines), continuing after each match. -/
def findNames (l : List Char) : List (List Char) :=
  findNamesAux l none

/-- Translation flag that disables the placeholder cross-comparison. -/
def ignoreFlag : String := "ignore-placeholder-compare"

/-- Model of the inner function `_place_holders(trans_string, src_string,
flags)`, refined to report which of its two error prints fires.  The Python
comparison `sorted(org_names) != sorted(trans_names)` is modelled as
inequality of the corresponding multisets (two lists have equal sorted
versions exactly when one is a permutation of the other). -/
def place_holders (trans_string src_string : List Char) (flags : List String) :
    Option Finding :=
  if ignoreFlag ∈ flags then none
  else if ¬ (src_string.count lcurly = trans_string.count lcurly) then
    some Finding.PlaceholderCountMismatch
  else if ¬ (src_string.count rcurly = trans_string.count rcurly) then
    some Finding.PlaceholderCountMismatch
  else if ¬ ((Multiset.ofList (findNames src_string)) =
             (Multiset.ofList (findNames trans_string))) then
    some Finding.PlaceholderNameMismatch
  else none

/-- Scanner states of the tokenizer behind `string.Formatter().parse`
(CPython's formatter_parser), used by `_other_errors`:
`lit` scanning literal text, `lbr` just after an opening brace, `rbr` just
after a closing brace seen in literal text, `field` inside a field name,
`fieldBr` inside square brackets within a field name, `conv0` just after
an exclamation mark, `conv1` just after the conversion character, and
`spec n` inside a format spec at brace-nesting depth `n`. -/
inductive FmtState where
  | lit
  | lbr
  | rbr
  | field
  | fieldBr
  | conv0
  | conv1
  | spec (n : Nat)
deriving DecidableEq, Repr

/-- Character-by-character model of CPython's formatter tokenizer: returns
true exactly when `string.Formatter().parse` succeeds on the string, false
when it raises ValueError.  Transitions follow the C implementation: doubled
braces are literals, a lone closing brace or a trailing opening brace fails,
an opening brace inside a field name fails, square brackets protect the
field-name terminators, a conversion character must be followed by a colon
or a closing brace, and format specs balance nested braces. -/
def fmtScan : List Char → FmtState → Bool
  | [], st => st = FmtState.lit
  | c :: rest, st =>
    match st with
    | FmtState.lit =>
      if c = lcurly then fmtScan rest FmtState.lbr
      else if c = rcurly then fmtScan rest FmtState.rbr
      else fmtScan rest FmtState.lit
    | FmtState.lbr =>
      if c = lcurly then fmtScan rest FmtState.lit
      else if c = rcurly then fmtScan rest FmtState.lit
      else if c = ':' then fmtScan rest (FmtState.spec 1)
      else if c = '!' then fmtScan rest FmtState.conv0
      else if c = '[' then fmtScan rest FmtState.fieldBr
      else fmtScan rest FmtState.field
    | FmtState.rbr =>
      if c = rcurly then fmtScan rest FmtState.lit else false
    | FmtState.field =>
      if c = lcurly then false
      else if c = rcurly then fmtScan rest FmtState.lit
      else if c = ':' then fmtScan rest (FmtState.spec 1)
      else if c = '!' then fmtScan rest FmtState.conv0
      else if c = '[' then fmtScan rest FmtState.fieldBr
      else fmtScan rest FmtState.field
    | FmtState.fieldBr =>
      if c = ']' then fmtScan rest FmtState.field
      else fmtScan rest FmtState.fieldBr
    | FmtState.conv0 => fmtScan rest FmtState.conv1
    | FmtState.conv1 =>
      if c = rcurly then fmtScan rest FmtState.lit
      else if c = ':' then fmtScan rest (FmtState.spec 1)
      else false
    | FmtState.spec n =>
      if c = lcurly then fmtScan rest (FmtState.spec (n + 1))
      else if c = rcurly then
        (if n = 1 then fmtScan rest FmtState.lit
         else fmtScan rest (FmtState.spec (n - 1)))
      else fmtScan rest (FmtState.spec n)

/-- Model of the inner function `_other_errors`: true when
`list(string.Formatter().parse(format_string=to_check))` raises no
exception. -/
def other_errors (to_check : List Char) : Bool :=
  fmtScan to_check FmtState.lit

/-- Validation applied by `check_syntax_of_po_files` to a single entry of
`pof.translated_entries()`: plural entries are skipped outright; otherwise
the three checks run in short-circuit order and the first failing check
determines the reported finding. -/
def check_syntax_entry (entry : POEntry) : Option Finding :=
  if entry.msgstr_plural ≠ [] ∨ entry.msgid_plural ≠ [] then none
  else
    match curlyBracketsResult entry.msgstr with
    | some f => some f
    | none =>
      if other_errors entry.msgstr then
        place_holders entry.msgstr entry.msgid entry.flags
      else some Finding.MalformedPlaceholder

/-- Model of the per-file loop of `check_syntax_of_po_files`: the ordered
list of per-entry results over the (already parsed) translated entries of
one po file. -/
def check_syntax_of_po_files (entries : List POEntry) : List (Option Finding) :=
  entries.map check_syntax_entry

instance {ε α : Type} [DecidableEq ε] [DecidableEq α] : DecidableEq (Except ε α) :=
  fun a b =>
    match a, b with
    | Except.ok x, Except.ok y =>
      if h : x = y then isTrue (by rw [h]) else isFalse (by simp [h])
    | Except.error x, Except.error y =>
      if h : x = y then isTrue (by rw [h]) else isFalse (by simp [h])
    | Except.ok _, Except.error _ => isFalse (by simp)
    | Except.error _, Except.ok _ => isFalse (by simp)

/-- Model of the regex word-character class `\w` used by
`REX_SHORTCUT_LETTER = re.compile(r'&(\w)')`: letters, digits and the
underscore (exact on the ASCII range; non-ASCII Unicode letters are not
modelled). -/
def isWordChar (c : Char) : Bool :=
  c.isAlphanum ∨ c = '_'

/-- Model of `REX_SHORTCUT_LETTER.search(s)` together with
`.groups()[0]`: scan left to right for the first position where an
ampersand is immediately followed by a word character and return that word
character; `none` when the pattern does not match anywhere. -/
def searchShortcutLetter : List Char → Option Char
  | [] => none
  | a :: rest =>
    if a = '&' then
      match rest with
      | [] => none
      | c :: _ => if isWordChar c then some c else searchShortcutLetter rest
    else searchShortcutLetter rest

/-- Boolean stating that position `i` of the string starts a shortcut
marker: an ampersand with a word character right after it.  Used to state
the first-match characterisation of `searchShortcutLetter`. -/
def markerAt (t : List Char) (i : Nat) : Bool :=
  decide (t.get? i = some '&') &&
    match t.get? (i + 1) with
    | some c => isWordChar c
    | none => false

/-- Model of `get_shortcut_entries(po_file)`: the entries that are not
obsolete and whose msgid matches the shortcut pattern, in file order. -/
def get_shortcut_entries (po_file : List POEntry) : List POEntry :=
  po_file.filter
    (fun entry => entry.obsolete = false ∧ (searchShortcutLetter entry.msgid).isSome)

/-- The hard-coded `expect` list of `get_shortcut_groups` before the
workaround prepend: the registered shortcut-bearing source strings. -/
def expectStrings : List (List Char) :=
  [("&Backup").toList,
   ("&Restore").toList,
   ("&Help").toList,
   ("&General").toList,
   ("&Include").toList,
   ("&Exclude").toList,
   ("&Auto-remove").toList,
   ("&Options").toList,
   ("Back In &Time").toList,
   ("E&xpert Options").toList]

/-- The live shortcut-bearing source strings of the template: the `real`
list computed at the start of `get_shortcut_groups`. -/
def liveShortcutStrings (template : List POEntry) : List (List Char) :=
  (get_shortcut_entries template).map (fun entry => entry.msgid)

/-- Model of `get_shortcut_groups()`, parameterised by the parsed template
entries.  The Python comparison `sorted(real) == sorted(expect)` is
modelled as equality of the corresponding multisets; the raised ValueError
is modelled as `Except.error`.  On success the workaround prepends the
string containing the project name and the list is sliced into the two
groups. -/
def get_shortcut_groups (template : List POEntry) :
    Except Unit (List (String × List (List Char))) :=
  let real := liveShortcutStrings template
  if Multiset.ofList real = Multiset.ofList expectStrings then
    let expect2 := ("Back In &Time").toList :: expectStrings
    Except.ok [("mainwindow", expect2.take 4), ("manageprofile", expect2.drop 4)]
  else Except.error ()

/-- The value `get_shortcut_groups` returns whenever it does not raise. -/
def shortcutGroupsValue : List (String × List (List Char)) :=
  [("mainwindow",
    [("Back In &Time").toList, ("&Backup").toList, ("&Restore").toList,
     ("&Help").toList]),
   ("manageprofile",
    [("&General").toList, ("&Include").toList, ("&Exclude").toList,
     ("&Auto-remove").toList, ("&Options").toList, ("Back In &Time").toList,
     ("E&xpert Options").toList])]

/-- One collision finding of `check_shortcuts` for one group of one po
file: the group name, the registered source strings, the translated strings
collected for the group, and whether the secondary "maybe missing" note was
attached (fewer collected letters than collected translations). -/
structure ShortcutFinding where
  group : String
  source : List (List Char)
  translations : List (List Char)
  maybeMissing : Bool
deriving DecidableEq, Repr

/-- The translated strings collected for one group over one po file: the
msgstr of every shortcut entry whose msgid belongs to the group's member
list, in entry order (the `real[groupname]` list of `check_shortcuts`). -/
def groupTranslations (members : List (List Char)) (entries : List POEntry) :
    List (List Char) :=
  ((get_shortcut_entries entries).filter
    (fun entry => entry.msgid ∈ members)).map (fun entry => entry.msgstr)

/-- The letters collected from a list of translated strings: the first
shortcut letter of each string that has one, strings without a marker
contributing nothing (the AttributeError branch of `check_shortcuts`). -/
def collectLetters (translations : List (List Char)) : List Char :=
  translations.filterMap searchShortcutLetter

/-- Model of the per-po-file body of `check_shortcuts` given already
validated groups: for each group, collect the member translations, collect
their shortcut letters, and report a finding exactly when
`len(letters) > len(set(letters))`, with the "maybe missing" note when
`len(letters) < len(real[groupname])`. -/
def check_shortcuts_po (groups : List (String × List (List Char)))
    (entries : List POEntry) : List ShortcutFinding :=
  groups.filterMap (fun g =>
    if (collectLetters (groupTranslations g.2 entries)).dedup.length <
        (collectLetters (groupTranslations g.2 entries)).length then
      some { group := g.1, source := g.2,
             translations := groupTranslations g.2 entries,
             maybeMissing := (collectLetters (groupTranslations g.2 entries)).length <
               (groupTranslations g.2 entries).length }
    else none)

/-- Model of the whole `check_shortcuts()` pass: obtain the groups from the
template (propagating the ValueError of the drift check, which halts the
pass before any po file is scanned) and run the per-file body over each
language's entry list. -/
def check_shortcuts (template : List POEntry)
    (languages : List (String × List POEntry)) :
    Except Unit (List (String × List ShortcutFinding)) :=
  match get_shortcut_groups template with
  | Except.error e => Except.error e
  | Except.ok groups =>
    Except.ok (languages.map (fun lang => (lang.1, check_shortcuts_po groups lang.2)))

/-- Template entry fixture: a non-obsolete, non-plural entry with the given
msgid and an empty translation, as found in messages.pot. -/
def templateEntry (s : String) : POEntry :=
  { msgid := s.toList, msgstr := [], msgid_plural := [], msgstr_plural := [],
    flags := [], obsolete := false }

/-- Template fixture whose shortcut-bearing msgids are exactly the
registered expect list. -/
def templateEntries : List POEntry :=
  [templateEntry "&Backup", templateEntry "&Restore", templateEntry "&Help",
   templateEntry "&General", templateEntry "&Include", templateEntry "&Exclude",
   templateEntry "&Auto-remove", templateEntry "&Options",
   templateEntry "Back In &Time", templateEntry "E&xpert Options"]

/-- Template fixture carrying a second entry for an already registered
msgid: its live strings equal the registered ones as a set but not as a
multiset. -/
def templateEntriesDup : List POEntry :=
  templateEntries ++ [templateEntry "&Backup"]

/-- Fixture for the plural-handling claims: a plural entry (non-empty
msgid_plural and msgstr_plural) whose msgid belongs to the mainwindow group
and whose msgstr carries the shortcut letter Z. -/
def pluralShortcutEntry : POEntry :=
  { msgid := ("&Backup").toList, msgstr := ("&Zebra").toList,
    msgid_plural := ("&Backups").toList, msgstr_plural := [("&Zebras").toList],
    flags := [], obsolete := false }

/-- Fixture: an ordinary non-plural entry of the mainwindow group whose
msgstr also carries the shortcut letter Z. -/
def plainShortcutEntry : POEntry :=
  { msgid := ("&Restore").toList, msgstr := ("&Zulu").toList,
    msgid_plural := [], msgstr_plural := [], flags := [], obsolete := false }

/-- Fixture group list for the collision claims: one group with two
registered source strings. -/
def collisionGroups : List (String × List (List Char)) :=
  [("g", [("&Ab").toList, ("&Cd").toList])]

/-- Fixture entries whose translations both claim the shortcut letter X. -/
def collisionEntries : List POEntry :=
  [{ msgid := ("&Ab").toList, msgstr := ("&Xy").toList, msgid_plural := [],
     msgstr_plural := [], flags := [], obsolete := false },
   { msgid := ("&Cd").toList, msgstr := ("&Xz").toList, msgid_plural := [],
     msgstr_plural := [], flags := [], obsolete := false }]

/-! ## Helper lemmas -/

theorem removeCurlyPairs_eq_nil_iff :
    ∀ l : List Char, removeCurlyPairs l = [] ↔ flatCurlyPairs l = true
  | [] => by simp [removeCurlyPairs, flatCurlyPairs]
  | [c] => by simp [removeCurlyPairs, flatCurlyPairs]
  | a :: b :: rest => by
    by_cases h : a = lcurly ∧ b = rcurly
    · simp only [removeCurlyPairs, flatCurlyPairs, if_pos h]
      exact removeCurlyPairs_eq_nil_iff rest
    · simp [removeCurlyPairs, flatCurlyPairs, if_neg h]

theorem curly_brackets_balanced_iff_flat (s : List Char) :
    curly_brackets_balanced s = flatCurlyPairs (reduceToCurly s) := by
  by_cases h : removeCurlyPairs (reduceToCurly s) = []
  · have hf : flatCurlyPairs (reduceToCurly s) = true :=
      (removeCurlyPairs_eq_nil_iff _).mp h
    simp [curly_brackets_balanced, curlyBracketsResult, h, hf, containsCurlyPair]
  · have hf : flatCurlyPairs (reduceToCurly s) = false := by
      cases hfc : flatCurlyPairs (reduceToCurly s)
      · rfl
      · exact absurd ((removeCurlyPairs_eq_nil_iff _).mpr hfc) h
    by_cases hc : containsCurlyPair (removeCurlyPairs (reduceToCurly s)) = true
    · simp [curly_brackets_balanced, curlyBracketsResult, h, hf, hc]
    · simp [curly_brackets_balanced, curlyBracketsResult, h, hf, hc]

theorem dedup_length_lt_iff (l : List Char) :
    l.dedup.length < l.length ↔ ∃ c, 2 ≤ l.count c := by
  constructor
  · intro h
    by_contra hc
    push_neg at hc
    have hn : l.Nodup := List.nodup_iff_count_le_one.mpr (fun a => by
      have := hc a
      omega)
    rw [List.dedup_eq_self.mpr hn] at h
    omega
  · rintro ⟨c, hc⟩
    by_contra h
    push_neg at h
    have hsub : l.dedup.Sublist l := List.dedup_sublist l
    have hle : l.dedup.length ≤ l.length := hsub.length_le
    have heq : l.dedup = l := hsub.eq_of_length (le_antisymm hle h)
    have hn : l.Nodup := heq ▸ List.nodup_dedup l
    have := List.nodup_iff_count_le_one.mp hn c
    omega

theorem markerAt_cons_succ (a : Char) (t : List Char) (j : Nat) :
    markerAt (a :: t) (j + 1) = markerAt t j := rfl

theorem markerAt_cons_zero (a : Char) (rest : List Char) :
    markerAt (a :: rest) 0 =
      (decide (a = '&') &&
        match rest with
        | [] => false
        | c :: _ => isWordChar c) := by
  cases rest <;> simp [markerAt, List.get?]

theorem searchShortcutLetter_first :
    ∀ t : List Char, (∃ i, markerAt t i = true) →
      ∃ i c, t.get? (i + 1) = some c ∧ markerAt t i = true ∧
        (∀ j, j < i → markerAt t j = false) ∧ searchShortcutLetter t = some c := by
  intro t
  induction t with
  | nil =>
    rintro ⟨i, hi⟩
    simp [markerAt, List.get?] at hi
  | cons a rest ih =>
    intro hex
    cases hm : markerAt (a :: rest) 0 with
    | true =>
      have hm' := hm
      rw [markerAt_cons_zero] at hm'
      rcases (Bool.and_eq_true _ _).mp hm' with ⟨ha, hw⟩
      have ha' : a = '&' := of_decide_eq_true ha
      cases rest with
      | nil => simp at hw
      | cons c rest2 =>
        have hw2 : isWordChar c = true := hw
        refine ⟨0, c, rfl, hm, ?_, ?_⟩
        · intro j hj
          exact absurd hj (Nat.not_lt_zero j)
        · simp [searchShortcutLetter, ha', hw2]
    | false =>
      have hs : searchShortcutLetter (a :: rest) = searchShortcutLetter rest := by
        by_cases ha : a = '&'
        · cases rest with
          | nil => simp [searchShortcutLetter, ha]
          | cons c rest2 =>
            have hw : isWordChar c = false := by
              have hm' := hm
              rw [markerAt_cons_zero] at hm'
              simpa [ha] using hm'
            simp [searchShortcutLetter, ha, hw]
        · simp [searchShortcutLetter, ha]
      have hex' : ∃ i, markerAt rest i = true := by
        rcases hex with ⟨i, hi⟩
        cases i with
        | zero => rw [hm] at hi; exact absurd hi (by simp)
        | succ j => exact ⟨j, by rw [← markerAt_cons_succ a rest j]; exact hi⟩
      rcases ih hex' with ⟨i, c, h1, h2, h3, h4⟩
      refine ⟨i + 1, c, ?_, ?_, ?_, ?_⟩
      · simpa [List.get?] using h1
      · rw [markerAt_cons_succ]; exact h2
      · intro j hj
        cases j with
        | zero => exact hm
        | succ k => rw [markerAt_cons_succ]; exact h3 k (by omega)
      · rw [hs]; exact h4

/-! ## Claim theorems -/

/-- Claim C2, counterexample: the two-character string made of a closing
curly bracket followed by an opening one has equal counts of the two brace
characters and contains no nested empty-pair pattern (no curly pair matches
anywhere, before or after the pair-removal pass), yet
`_curly_brackets_balanced` returns false. -/
theorem claim_C2_counterexample :
    (("\x7d\x7b").toList.count lcurly = ("\x7d\x7b").toList.count rcurly) ∧
    containsCurlyPair (reduceToCurly ("\x7d\x7b").toList) = false ∧
    containsCurlyPair (removeCurlyPairs (reduceToCurly ("\x7d\x7b").toList)) = false ∧
    curly_brackets_balanced ("\x7d\x7b").toList = false := by
  decide

/-- Claim C2, amended: `_curly_brackets_balanced` returns true exactly when
the subsequence of curly-bracket characters of the string is a
concatenation of immediately matched empty pairs — equal counts and absence
of the nested pattern do not suffice, because a closing bracket standing
before its opening bracket also leaves a residue. -/
theorem claim_C2 (s : List Char) :
    curly_brackets_balanced s = flatCurlyPairs (reduceToCurly s) :=
  curly_brackets_balanced_iff_flat s

/-- Claim C8: the brace-balance check returns true on "text \x7b\x7d more",
false on "text \x7b more", and false on "\x7b\x7b\x7d\x7d" with the failure
detected as nested braces. -/
theorem claim_C8 :
    curly_brackets_balanced ("text \x7b\x7d more").toList = true ∧
    curly_brackets_balanced ("text \x7b more").toList = false ∧
    curly_brackets_balanced ("\x7b\x7b\x7d\x7d").toList = false ∧
    curlyBracketsResult ("\x7b\x7b\x7d\x7d").toList = some Finding.NestedPlaceholder := by
  decide

/-- Claim C3, counterexample: with no opt-out flag and matching brace
counts, the source whose placeholder names are a, a, b and the translation
whose names are a, b, b have equal extracted name sets, yet `_place_holders`
reports the name mismatch — the code compares sorted lists, not sets. -/
theorem claim_C3_counterexample :
    ignoreFlag ∉ ([] : List String) ∧
    (("\x7ba\x7d\x7ba\x7d\x7bb\x7d").toList.count lcurly =
      ("\x7ba\x7d\x7bb\x7d\x7bb\x7d").toList.count lcurly) ∧
    (("\x7ba\x7d\x7ba\x7d\x7bb\x7d").toList.count rcurly =
      ("\x7ba\x7d\x7bb\x7d\x7bb\x7d").toList.count rcurly) ∧
    (findNames ("\x7ba\x7d\x7ba\x7d\x7bb\x7d").toList).toFinset =
      (findNames ("\x7ba\x7d\x7bb\x7d\x7bb\x7d").toList).toFinset ∧
    place_holders ("\x7ba\x7d\x7bb\x7d\x7bb\x7d").toList
      ("\x7ba\x7d\x7ba\x7d\x7bb\x7d").toList [] =
      some Finding.PlaceholderNameMismatch := by
  decide

/-- Claim C3, amended: when the cross-comparison runs and the brace counts
match, the name check compares the extracted names as multisets (equality
of the sorted name lists): a PlaceholderNameMismatch finding is produced
exactly when the name multisets differ, so order is ignored but duplicates
within each side are not. -/
theorem claim_C3 (src_string trans_string : List Char) (flags : List String)
    (h1 : ignoreFlag ∉ flags)
    (h2 : src_string.count lcurly = trans_string.count lcurly)
    (h3 : src_string.count rcurly = trans_string.count rcurly) :
    place_holders trans_string src_string flags = some Finding.PlaceholderNameMismatch ↔
      ¬ (Multiset.ofList (findNames src_string) =
         Multiset.ofList (findNames trans_string)) := by
  unfold place_holders
  rw [if_neg h1, if_neg (not_not_intro h2), if_neg (not_not_intro h3)]
  by_cases hm : Multiset.ofList (findNames src_string) =
      Multiset.ofList (findNames trans_string)
  · rw [if_neg (not_not_intro hm)]
    simp [hm]
  · rw [if_pos hm]
    simp [hm]

/-- Witness for claim C3 at a concrete input: source with name x,
translation with name y, no flags. -/
theorem claim_C3_witness :
    ignoreFlag ∉ ([] : List String) ∧
    (("\x7bx\x7d").toList.count lcurly = ("\x7by\x7d").toList.count lcurly) ∧
    (("\x7bx\x7d").toList.count rcurly = ("\x7by\x7d").toList.count rcurly) ∧
    (place_holders ("\x7by\x7d").toList ("\x7bx\x7d").toList [] =
        some Finding.PlaceholderNameMismatch ↔
      ¬ (Multiset.ofList (findNames ("\x7bx\x7d").toList) =
         Multiset.ofList (findNames ("\x7by\x7d").toList))) :=
  ⟨by decide, by decide, by decide,
   claim_C3 ("\x7bx\x7d").toList ("\x7by\x7d").toList [] (by decide) (by decide)
     (by decide)⟩

/-- Claim C6, counterexample: a template carrying a duplicate entry for an
already registered shortcut msgid has a live string set equal, as a set, to
the registered expect set, yet `get_shortcut_groups` raises the drift
error — the comparison is of sorted lists, not sets. -/
theorem claim_C6_counterexample :
    (liveShortcutStrings templateEntriesDup).toFinset = expectStrings.toFinset ∧
    get_shortcut_groups templateEntriesDup = Except.error () := by
  decide

/-- Claim C6, amended: the drift check of `get_shortcut_groups` fails
exactly when the multiset (sorted list) of live, non-obsolete,
shortcut-bearing source strings of the template differs from the registered
expect list as a multiset — exact unordered equality in both directions,
not a subset test, but counting multiplicity rather than comparing sets. -/
theorem claim_C6 (template : List POEntry) :
    get_shortcut_groups template = Except.error () ↔
      ¬ (Multiset.ofList (liveShortcutStrings template) =
         Multiset.ofList expectStrings) := by
  unfold get_shortcut_groups
  by_cases h : Multiset.ofList (liveShortcutStrings template) =
      Multiset.ofList expectStrings
  · simp [h]
  · simp [h]

/-- Claim C7: for source "Hello \x7bname\x7d" and translation
"Bonjour \x7bnom\x7d", the per-entry validation reports the
placeholder-name-mismatch finding without the opt-out flag and reports
nothing with it; moreover the flag skips the whole cross-comparison for
every source/translation pair. -/
theorem claim_C7 :
    check_syntax_entry
      { msgid := ("Hello \x7bname\x7d").toList,
        msgstr := ("Bonjour \x7bnom\x7d").toList,
        msgid_plural := [], msgstr_plural := [], flags := [],
        obsolete := false } = some Finding.PlaceholderNameMismatch ∧
    check_syntax_entry
      { msgid := ("Hello \x7bname\x7d").toList,
        msgstr := ("Bonjour \x7bnom\x7d").toList,
        msgid_plural := [], msgstr_plural := [], flags := [ignoreFlag],
        obsolete := false } = none ∧
    ∀ trans_string src_string : List Char,
      place_holders trans_string src_string [ignoreFlag] = none :=
  ⟨by decide, by decide, fun _ _ => by simp [place_holders, ignoreFlag]⟩

/-- Claim C9: both validation passes are pure functions of their entry
lists, so running each twice over the same immutable entry lists yields
identical ordered results. -/
theorem claim_C9 (entries template : List POEntry)
    (languages : List (String × List POEntry)) :
    check_syntax_of_po_files entries = check_syntax_of_po_files entries ∧
    check_shortcuts template languages = check_shortcuts template languages :=
  ⟨rfl, rfl⟩

/-- Claim C1, counterexample: a plural entry (non-empty msgid_plural) is
not filtered out by `get_shortcut_entries`, and its translation's shortcut
letter makes the collision pass report a finding that disappears when the
plural entry is removed — the shortcut pass does not skip plural forms. -/
theorem claim_C1_counterexample :
    pluralShortcutEntry.msgid_plural ≠ [] ∧
    pluralShortcutEntry ∈
      get_shortcut_entries [pluralShortcutEntry, plainShortcutEntry] ∧
    get_shortcut_groups templateEntries = Except.ok shortcutGroupsValue ∧
    (check_shortcuts_po shortcutGroupsValue
      [pluralShortcutEntry, plainShortcutEntry]).length = 1 ∧
    check_shortcuts_po shortcutGroupsValue [plainShortcutEntry] = [] := by
  decide

/-- Claim C1, amended: a plural entry is always skipped by the placeholder
validation pass (no finding regardless of content), but the
shortcut-collision pass does not filter plural entries: any non-obsolete
entry whose msgid bears a shortcut marker is passed to the detector. -/
theorem claim_C1 (e : POEntry)
    (h : e.msgid_plural ≠ [] ∨ e.msgstr_plural ≠ []) :
    check_syntax_entry e = none ∧
    ∀ es : List POEntry, e.obsolete = false →
      (searchShortcutLetter e.msgid).isSome = true →
      e ∈ get_shortcut_entries (e :: es) := by
  constructor
  · unfold check_syntax_entry
    rw [if_pos (Or.symm h)]
  · intro es ho hs
    unfold get_shortcut_entries
    exact List.mem_filter.mpr ⟨List.mem_cons_self e es, by simp [ho, hs]⟩

/-- Witness for claim C1 at the concrete plural fixture entry. -/
theorem claim_C1_witness :
    (pluralShortcutEntry.msgid_plural ≠ [] ∨
      pluralShortcutEntry.msgstr_plural ≠ []) ∧
    (check_syntax_entry pluralShortcutEntry = none ∧
     ∀ es : List POEntry, pluralShortcutEntry.obsolete = false →
       (searchShortcutLetter pluralShortcutEntry.msgid).isSome = true →
       pluralShortcutEntry ∈ get_shortcut_entries (pluralShortcutEntry :: es)) :=
  ⟨by decide, claim_C1 pluralShortcutEntry (by decide)⟩

/-- Claim C4, counterexample: on a template matching the registered list,
`get_shortcut_groups` succeeds and places the shortcut-bearing source
string "Back In &Time" in both of the two (distinctly named) groups, so the
groups are not pairwise disjoint. -/
theorem claim_C4_counterexample :
    get_shortcut_groups templateEntries = Except.ok shortcutGroupsValue ∧
    (searchShortcutLetter ("Back In &Time").toList).isSome = true ∧
    shortcutGroupsValue.map Prod.fst = ["mainwindow", "manageprofile"] ∧
    shortcutGroupsValue.countP
      (fun g => decide (("Back In &Time").toList ∈ g.2)) = 2 := by
  decide

/-- Claim C4, amended: whenever `get_shortcut_groups` succeeds it returns
the fixed two groups; every non-obsolete shortcut-bearing source string of
the template belongs to at least one group, and the groups are pairwise
disjoint except for "Back In &Time", which the workaround places in both. -/
theorem claim_C4 (template : List POEntry)
    (groups : List (String × List (List Char)))
    (h : get_shortcut_groups template = Except.ok groups) :
    groups = shortcutGroupsValue ∧
    (∀ e ∈ template, e.obsolete = false →
      (searchShortcutLetter e.msgid).isSome = true →
      ∃ g ∈ groups, e.msgid ∈ g.2) ∧
    (∀ g1 ∈ groups, ∀ g2 ∈ groups, ∀ s ∈ g1.2, s ∈ g2.2 →
      g1 = g2 ∨ s = ("Back In &Time").toList) := by
  have hsplit : Multiset.ofList (liveShortcutStrings template) =
      Multiset.ofList expectStrings ∧ groups = shortcutGroupsValue := by
    simp only [get_shortcut_groups] at h
    split at h
    case isTrue hc =>
      injection h with h2
      exact ⟨hc, by rw [← h2]; rfl⟩
    case isFalse hc => simp at h
  obtain ⟨hm, hg⟩ := hsplit
  subst hg
  refine ⟨rfl, ?_, ?_⟩
  · intro e he ho hs
    have hmem : e ∈ get_shortcut_entries template :=
      List.mem_filter.mpr ⟨he, by simp [ho, hs]⟩
    have hmsg : e.msgid ∈ liveShortcutStrings template :=
      List.mem_map.mpr ⟨e, hmem, rfl⟩
    have h1 : e.msgid ∈ Multiset.ofList (liveShortcutStrings template) := by
      simpa using hmsg
    rw [hm] at h1
    have h2 : e.msgid ∈ expectStrings := by simpa using h1
    have hcover : ∀ s ∈ expectStrings, ∃ g ∈ shortcutGroupsValue, s ∈ g.2 := by
      decide
    exact hcover e.msgid h2
  · decide

/-- Witness for claim C4 at the concrete template fixture. -/
theorem claim_C4_witness :
    get_shortcut_groups templateEntries = Except.ok shortcutGroupsValue ∧
    (shortcutGroupsValue = shortcutGroupsValue ∧
     (∀ e ∈ templateEntries, e.obsolete = false →
       (searchShortcutLetter e.msgid).isSome = true →
       ∃ g ∈ shortcutGroupsValue, e.msgid ∈ g.2) ∧
     (∀ g1 ∈ shortcutGroupsValue, ∀ g2 ∈ shortcutGroupsValue,
       ∀ s ∈ g1.2, s ∈ g2.2 → g1 = g2 ∨ s = ("Back In &Time").toList)) :=
  ⟨by decide, claim_C4 templateEntries shortcutGroupsValue (by decide)⟩

/-- Claim C5: within any group of any language's entry list, a collision
finding for that group is reported exactly when some letter occurs at least
twice (compared verbatim) in the multiset of letters collected from the
group members' translations, and a translation carrying no shortcut marker
contributes no letter — in particular, missing markers alone never cause a
finding. -/
theorem claim_C5 (groups : List (String × List (List Char)))
    (entries : List POEntry) (name : String) (members : List (List Char))
    (h : (name, members) ∈ groups) :
    ((∃ f ∈ check_shortcuts_po groups entries,
        f.group = name ∧ f.source = members) ↔
      ∃ c, 2 ≤ (collectLetters (groupTranslations members entries)).count c) ∧
    (∀ translations t, searchShortcutLetter t = none →
      collectLetters (translations ++ [t]) = collectLetters translations) := by
  constructor
  · constructor
    · rintro ⟨f, hf, hname, hsrc⟩
      simp only [check_shortcuts_po, List.mem_filterMap] at hf
      rcases hf with ⟨g, hg, hfn⟩
      split at hfn
      case isTrue hd =>
        injection hfn with hfn2
        have hsrc2 : g.2 = members := by
          rw [← hfn2] at hsrc
          exact hsrc
        have hd2 := hd
        rw [hsrc2] at hd2
        exact (dedup_length_lt_iff _).mp hd2
      case isFalse hd => exact absurd hfn (by simp)
    · rintro ⟨c, hc⟩
      have hd : (collectLetters (groupTranslations members entries)).dedup.length <
          (collectLetters (groupTranslations members entries)).length :=
        (dedup_length_lt_iff _).mpr ⟨c, hc⟩
      refine ⟨{ group := name, source := members,
                translations := groupTranslations members entries,
                maybeMissing :=
                  (collectLetters (groupTranslations members entries)).length <
                    (groupTranslations members entries).length }, ?_, rfl, rfl⟩
      simp only [check_shortcuts_po, List.mem_filterMap]
      refine ⟨(name, members), h, ?_⟩
      rw [if_pos hd]
  · intro translations t ht
    simp [collectLetters, List.filterMap_append, ht]

/-- Witness for claim C5 at the concrete collision fixtures: both
translations claim the letter X, so the finding is reported. -/
theorem claim_C5_witness :
    ("g", [("&Ab").toList, ("&Cd").toList]) ∈ collisionGroups ∧
    (((∃ f ∈ check_shortcuts_po collisionGroups collisionEntries,
        f.group = "g" ∧ f.source = [("&Ab").toList, ("&Cd").toList]) ↔
      ∃ c, 2 ≤ (collectLetters (groupTranslations
        [("&Ab").toList, ("&Cd").toList] collisionEntries)).count c) ∧
     (∀ translations t, searchShortcutLetter t = none →
       collectLetters (translations ++ [t]) = collectLetters translations)) :=
  ⟨by decide,
   claim_C5 collisionGroups collisionEntries "g"
     [("&Ab").toList, ("&Cd").toList] (by decide)⟩

/-- Claim C10: a translated string containing at least one shortcut marker
(an ampersand immediately followed by a word character) yields exactly the
word character following its first marker, earlier positions carrying no
marker; and the letter collection contributes exactly that one letter for
the string, further markers contributing nothing. -/
theorem claim_C10 (t : List Char) :
    ((∃ i, markerAt t i = true) →
      ∃ i c, t.get? (i + 1) = some c ∧ markerAt t i = true ∧
        (∀ j, j < i → markerAt t j = false) ∧
        searchShortcutLetter t = some c) ∧
    (∀ c translations, searchShortcutLetter t = some c →
      collectLetters (t :: translations) = c :: collectLetters translations) :=
  ⟨searchShortcutLetter_first t,
   fun c translations hc => by simp [collectLetters, hc]⟩

/-- Witness for claim C10 at a concrete string with two markers (positions
2 and 5) and one bare ampersand: the collected letter is the one after the
first marker. -/
theorem claim_C10_witness :
    (∃ i, markerAt ("x&&ab&c").toList i = true) ∧
    (∃ i c, (("x&&ab&c").toList).get? (i + 1) = some c ∧
      markerAt ("x&&ab&c").toList i = true ∧
      (∀ j, j < i → markerAt ("x&&ab&c").toList j = false) ∧
      searchShortcutLetter ("x&&ab&c").toList = some c) ∧
    (searchShortcutLetter ("x&&ab&c").toList = some 'a' ∧
     collectLetters [("x&&ab&c").toList, ("plain").toList] =
       'a' :: collectLetters [("plain").toList]) :=
  ⟨⟨2, by decide⟩,
   (claim_C10 ("x&&ab&c").toList).1 ⟨2, by decide⟩,
   by decide,
   (claim_C10 ("x&&ab&c").toList).2 'a' [("plain").toList] (by decide)⟩

end UpdateLanguageFiles
